import Mathlib

/-!
Shallow embedding of the bot-management server (storage, Telegram bot
lifecycle service, OpenAI completion gateway, GitHub gateway, and the
HTTP route handlers that the claims mention), translated from
src/server/routes.ts, src/server/storage.ts and
src/server/services/githubService.ts.  External collaborators
(the Telegram transport, the OpenAI API, the GitHub API) are modelled
as an explicit environment of oracles, and network activity is recorded
as an explicit event trace.
-/

namespace BotApp

/-! ## JavaScript primitives used by the source -/

/-- Model of the JS expression `x || d` on a nullable string: `null`,
`undefined` and the empty string are falsy. -/
def jsOr : Option String → String → String
| none, d => d
| some s, d => if s = "" then d else s

/-- Model of `x || d` where `x` is a non-nullable string (only the empty
string is falsy). -/
def jsOrS (s d : String) : String :=
if s = "" then d else s

/-- Model of `x || null` on a nullable string: the empty string collapses
to `null`. -/
def jsOrNull : Option String → Option String
| none => none
| some s => if s = "" then none else some s

def isJsSpace (c : Char) : Bool :=
c = ' ' || c = '\t' || c = '\n' || c = '\r'

def digitsToNat (l : List Char) : Nat :=
l.foldl (fun a c => a * 10 + (c.toNat - 48)) 0

def isHexDigitChar (c : Char) : Bool :=
c.isDigit || ('a' ≤ c && c ≤ 'f') || ('A' ≤ c && c ≤ 'F')

def hexDigitVal (c : Char) : Nat :=
if c.isDigit then c.toNat - 48
else if 'a' ≤ c && c ≤ 'f' then c.toNat - 87
else c.toNat - 55

def hexDigitsToNat (l : List Char) : Nat :=
l.foldl (fun a c => a * 16 + hexDigitVal c) 0

/-- Model of JS `parseInt(s)` (no radix argument): skip leading
whitespace, optional sign, then either a `0x`/`0X` hexadecimal literal
or a run of decimal digits; `none` models `NaN`. -/
def parseIntJS (s : String) : Option Int :=
let l := s.toList.dropWhile isJsSpace
let sl : Int × List Char :=
  match l with
  | '-' :: r => (-1, r)
  | '+' :: r => (1, r)
  | _ => (1, l)
match sl.2 with
| '0' :: 'x' :: r =>
  let ds := r.takeWhile isHexDigitChar
  if ds.isEmpty then none else some (sl.1 * (hexDigitsToNat ds : Int))
| '0' :: 'X' :: r =>
  let ds := r.takeWhile isHexDigitChar
  if ds.isEmpty then none else some (sl.1 * (hexDigitsToNat ds : Int))
| l2 =>
  let ds := l2.takeWhile Char.isDigit
  if ds.isEmpty then none else some (sl.1 * (digitsToNat ds : Int))

def parseExpPart (l : List Char) : Int :=
let sl : Int × List Char :=
  match l with
  | '-' :: r => (-1, r)
  | '+' :: r => (1, r)
  | _ => (1, l)
let ds := sl.2.takeWhile Char.isDigit
if ds.isEmpty then 0 else sl.1 * (digitsToNat ds : Int)

/-- Model of JS `parseFloat(s)`: skip leading whitespace, optional sign,
decimal digits with an optional fractional part and an optional decimal
exponent; `none` models `NaN`.  The `Infinity` literal is not modelled. -/
def parseFloatJS (s : String) : Option Rat :=
let l := s.toList.dropWhile isJsSpace
let sl : Rat × List Char :=
  match l with
  | '-' :: r => (-1, r)
  | '+' :: r => (1, r)
  | _ => (1, l)
let intDs := sl.2.takeWhile Char.isDigit
let rest := sl.2.dropWhile Char.isDigit
let fr : List Char × List Char :=
  match rest with
  | '.' :: r => (r.takeWhile Char.isDigit, r.dropWhile Char.isDigit)
  | _ => ([], rest)
if intDs.isEmpty ∧ fr.1.isEmpty then none
else
  let mantissa : Rat :=
    (digitsToNat intDs : Rat) + (digitsToNat fr.1 : Rat) / ((10 : Rat) ^ fr.1.length)
  let e : Int :=
    match fr.2 with
    | 'e' :: r => parseExpPart r
    | 'E' :: r => parseExpPart r
    | _ => 0
  some (sl.1 * mantissa * (10 : Rat) ^ e)

/-- Model of `Array.prototype.slice(0, e)`: a `NaN` end (`none`) converts
to 0, a negative end counts from the end of the array, and the result is
clamped to the array bounds. -/
def sliceTo (lim : Option Int) (l : List α) : List α :=
match lim with
| none => []
| some k => if k < 0 then l.take (l.length - (-k).toNat) else l.take k.toNat

/-- The base64 alphabet used by `btoa`. -/
def base64Chars : List Char :=
"ABCDEFGHIJKLMNOPQRSTUVWXYZabcdefghijklmnopqrstuvwxyz0123456789+/".toList

def b64c (i : Nat) : Char :=
base64Chars.getD i 'A'

def btoaGo : List Nat → List Char
| [] => []
| [b0] => [b64c (b0 / 4), b64c (b0 % 4 * 16), '=', '=']
| [b0, b1] => [b64c (b0 / 4), b64c (b0 % 4 * 16 + b1 / 16), b64c (b1 % 16 * 4), '=']
| b0 :: b1 :: b2 :: rest =>
  b64c (b0 / 4) :: b64c (b0 % 4 * 16 + b1 / 16) ::
    b64c (b1 % 16 * 4 + b2 / 64) :: b64c (b2 % 64) :: btoaGo rest

/-- Model of JS `btoa` on strings of Latin-1 characters (char codes are
taken as the bytes to encode). -/
def btoa (s : String) : String :=
String.mk (btoaGo (s.toList.map Char.toNat))

/-! ## Data model (src/shared/schema.ts, materialised by MemStorage) -/

structure Bot where
  id : String
  name : String
  description : Option String
  username : String
  telegramToken : String
  gptModel : String
  personality : Option String
  temperature : Option String
  maxTokens : Option String
  isActive : Bool
  createdAt : Option Nat
  userId : Option String
deriving DecidableEq

structure InsertBot where
  name : String
  description : Option String
  username : String
  telegramToken : String
  gptModel : Option String
  personality : Option String
  temperature : Option String
  maxTokens : Option String
  isActive : Option Bool
deriving DecidableEq

structure BotMessage where
  id : String
  botId : String
  message : String
  response : Option String
  timestamp : Option Nat
deriving DecidableEq

structure InsertBotMessage where
  botId : String
  message : String
  response : Option String
deriving DecidableEq

/-- A `Partial<Bot>` update payload as used by `MemStorage.updateBot`
(callers never patch the id, so it is not included). -/
structure BotPatch where
  name : Option String := none
  description : Option (Option String) := none
  username : Option String := none
  telegramToken : Option String := none
  gptModel : Option String := none
  personality : Option (Option String) := none
  temperature : Option (Option String) := none
  maxTokens : Option (Option String) := none
  isActive : Option Bool := none
  createdAt : Option (Option Nat) := none
  userId : Option (Option String) := none
deriving DecidableEq

/-- The JS spread `{...bot, ...updates}`. -/
def applyBotPatch (b : Bot) (p : BotPatch) : Bot :=
{ id := b.id
  name := p.name.getD b.name
  description := p.description.getD b.description
  username := p.username.getD b.username
  telegramToken := p.telegramToken.getD b.telegramToken
  gptModel := p.gptModel.getD b.gptModel
  personality := p.personality.getD b.personality
  temperature := p.temperature.getD b.temperature
  maxTokens := p.maxTokens.getD b.maxTokens
  isActive := p.isActive.getD b.isActive
  createdAt := p.createdAt.getD b.createdAt
  userId := p.userId.getD b.userId }

/-! ## MemStorage (src/server/storage.ts)

The in-memory `Map`s are modelled as insertion-ordered lists; `Map.set`
replaces in place when the key is present and appends otherwise,
`Map.delete` removes the entry with the key.  `randomUUID` is modelled
as a deterministic fresh-id supply, and `new Date()` as a logical clock
held in the state. -/

structure StoreState where
  bots : List Bot
  botMessages : List BotMessage
  nextId : Nat
  now : Nat
deriving DecidableEq

def uuid (n : Nat) : String :=
"uuid-" ++ toString n

def mapSetBot (l : List Bot) (b : Bot) : List Bot :=
if l.any (fun x => x.id == b.id) then
  l.map (fun x => if x.id = b.id then b else x)
else l ++ [b]

def getBot (s : StoreState) (id : String) : Option Bot :=
s.bots.find? (fun b => b.id == id)

def storageCreateBot (s : StoreState) (ib : InsertBot) (userId : String) : Bot × StoreState :=
let bot : Bot :=
  { id := uuid s.nextId
    name := ib.name
    description := jsOrNull ib.description
    username := ib.username
    telegramToken := ib.telegramToken
    gptModel := jsOr ib.gptModel "gpt-5"
    personality := jsOrNull ib.personality
    temperature := some (jsOr ib.temperature "0.7")
    maxTokens := some (jsOr ib.maxTokens "150")
    isActive := ib.isActive.getD false
    createdAt := some s.now
    userId := some userId }
(bot, { s with bots := mapSetBot s.bots bot, nextId := s.nextId + 1 })

def storageUpdateBot (s : StoreState) (id : String) (p : BotPatch) : Option Bot × StoreState :=
match getBot s id with
| none => (none, s)
| some b =>
  let b2 := applyBotPatch b p
  (some b2, { s with bots := s.bots.map (fun x => if x.id = id then b2 else x) })

def storageDeleteBot (s : StoreState) (id : String) : Bool × StoreState :=
(s.bots.any (fun b => b.id == id), { s with bots := s.bots.filter (fun b => !(b.id == id)) })

/-- Sort key of `MemStorage.getBotMessages`:
`(m.timestamp?.getTime() || 0)`. -/
def tsKey (m : BotMessage) : Nat :=
m.timestamp.getD 0

/-- Stable insertion into a list sorted by `tsKey` descending: an element
is placed after all existing elements with a key that is not smaller, so
equal keys keep their original relative order, exactly as the stable JS
`sort((a, b) => keyB - keyA)` does. -/
def insertTsDesc (m : BotMessage) : List BotMessage → List BotMessage
| [] => [m]
| x :: xs => if tsKey m ≤ tsKey x then x :: insertTsDesc m xs else m :: x :: xs

def sortTsDesc (l : List BotMessage) : List BotMessage :=
l.foldl (fun acc m => insertTsDesc m acc) []

def getBotMessages (s : StoreState) (botId : String) (limit : Option Int) : List BotMessage :=
sliceTo limit (sortTsDesc (s.botMessages.filter (fun m => m.botId == botId)))

def createBotMessage (s : StoreState) (im : InsertBotMessage) : BotMessage × StoreState :=
let m : BotMessage :=
  { id := uuid s.nextId
    botId := im.botId
    message := im.message
    response := jsOrNull im.response
    timestamp := some s.now }
(m, { s with botMessages := s.botMessages ++ [m], nextId := s.nextId + 1 })

/-! ## Completion gateway (OpenAIService, second half of
src/server/services/githubService.ts) -/

structure ChatMsg where
  role : String
  content : String
deriving DecidableEq

structure ChatRequest where
  model : String
  messages : List ChatMsg
  temperature : Option Rat
  maxTokens : Option Int
deriving DecidableEq

structure GPTConfig where
  model : String
  temperature : Option Rat
  maxTokens : Option Int
deriving DecidableEq

structure ChatParams where
  message : String
  systemPrompt : String
  history : List ChatMsg
deriving DecidableEq

/-! ## Network events and the environment of external collaborators -/

inductive NetEvent where
| getMe (token : String)
| startPolling (token : String)
| stopPolling (botId : String)
| sendChat (chatId : Int) (text : String)
| completion (req : ChatRequest)
| githubPut (repo : String) (path : String) (content : String)
deriving DecidableEq

/-- Oracles for the external services: the Telegram platform
(`getMe` verification, the polling start, message delivery), the
OpenAI chat-completions endpoint (an upstream error, or a response whose
message content may be null), and the GitHub contents endpoint. -/
structure SysEnv where
  getMeOk : String → Bool
  startPollingOk : String → Bool
  sendOk : Int → String → Bool
  chatCompletion : ChatRequest → Except String (Option String)
  putOk : String → String → Bool

def buildChatRequest (message personality : String) (config : GPTConfig) : ChatRequest :=
{ model := config.model
  messages := [{ role := "system", content := personality },
               { role := "user", content := message }]
  temperature := config.temperature
  maxTokens := config.maxTokens }

/-- The built-in fallback used by
`response.choices[0].message.content || ...` in the first
`generateResponse` signature. -/
def genFallbackText : String :=
"I\x27m sorry, I couldn\x27t generate a response."

/-- `OpenAIService.generateResponse(message, personality, config)`: a
single attempt; an upstream error becomes a thrown generation error, a
response whose content is null or empty is replaced by a built-in
fallback string (`content || fallback`). -/
def generateResponse (env : SysEnv) (message personality : String) (config : GPTConfig) :
    Except String String :=
match env.chatCompletion (buildChatRequest message personality config) with
| .error _ => .error "Failed to generate response from GPT"
| .ok content => .ok (jsOr content genFallbackText)

def buildChatParamsRequest (p : ChatParams) : ChatRequest :=
{ model := "gpt-4o"
  messages := { role := "system", content := p.systemPrompt } ::
                p.history ++ [{ role := "user", content := p.message }]
  temperature := parseFloatJS "0.7"
  maxTokens := some 500 }

/-- The second, object-signature `OpenAIService.generateResponse`
(the chat entry point): hard-coded model gpt-4o, temperature 0.7 and
max_tokens 500, with its own built-in fallback string. -/
def generateResponseChat (env : SysEnv) (p : ChatParams) : Except String String :=
match env.chatCompletion (buildChatParamsRequest p) with
| .error _ => .error "Failed to generate response from GPT"
| .ok content => .ok (jsOr content "Извините, не удалось сгенерировать ответ.")

/-! ## TelegramService (second half of src/server/routes.ts) -/

/-- The combined mutable state the service acts on: the storage maps and
the `Map<string, TelegramBot>` registry of live connections (only the
keys carry modelled state). -/
structure SysState where
  store : StoreState
  registry : List String
deriving DecidableEq

/-- Model of JS `s.startsWith(p)` (defined over the character lists so
that it evaluates inside the kernel). -/
def strStartsWith (s p : String) : Bool :=
p.toList.isPrefixOf s.toList

/-- The structural token check of `TelegramService.createBot`:
`!token || !token.startsWith('bot') || token.length < 20`. -/
def tokenMalformed (token : String) : Bool :=
token == "" || !(strStartsWith token "bot") || token.length < 20

/-- `TelegramService.createBot` (the Activate operation): reject a
malformed token before any network action, otherwise verify the token
with `getMe`, install handlers, start polling, register the connection
and mark the bot active; on any failure mark the bot inactive and
report failure. -/
def telegramCreateBot (env : SysEnv) (s : SysState) (botId token : String) :
    Bool × SysState × List NetEvent :=
if tokenMalformed token then
  (false, { s with store := (storageUpdateBot s.store botId { isActive := some false }).2 }, [])
else if env.getMeOk token then
  if env.startPollingOk token then
    (true,
     { store := (storageUpdateBot s.store botId { isActive := some true }).2
       registry := if botId ∈ s.registry then s.registry else s.registry ++ [botId] },
     [.getMe token, .startPolling token])
  else
    (false, { s with store := (storageUpdateBot s.store botId { isActive := some false }).2 },
     [.getMe token, .startPolling token])
else
  (false, { s with store := (storageUpdateBot s.store botId { isActive := some false }).2 },
   [.getMe token])

/-- `TelegramService.stopBot` (the Deactivate operation): when a live
connection exists, stop its polling (best effort), remove it from the
registry and mark the bot inactive; otherwise report that no connection
existed, touching nothing. -/
def telegramStopBot (s : SysState) (botId : String) : Bool × SysState × List NetEvent :=
if botId ∈ s.registry then
  (true,
   { store := (storageUpdateBot s.store botId { isActive := some false }).2
     registry := s.registry.filter (fun x => !(x == botId)) },
   [.stopPolling botId])
else (false, s, [])

def filterCompletion : NetEvent → Option ChatRequest
| .completion r => some r
| _ => none

/-- The completion requests contained in a network trace. -/
def completionRequests (l : List NetEvent) : List ChatRequest :=
l.filterMap filterCompletion

def apologyText : String :=
"Sorry, I encountered an error processing your message."

/-- `TelegramService.handleMessage` (RouteInboundMessage): drop empty
messages and messages for unknown bots; otherwise log the inbound text
with no reply, request a completion built from the stored bot
configuration, send the produced text back and log the completed
exchange; if generation or delivery throws, send a best-effort apology.
The network trace records the completion request issued to the gateway
and every outbound Telegram send. -/
def handleMessage (env : SysEnv) (s : SysState) (botId : String) (chatId : Int)
    (text : Option String) : SysState × List NetEvent :=
match text with
| none => (s, [])
| some t =>
  if t = "" then (s, [])
  else
    match getBot s.store botId with
    | none => (s, [])
    | some botConfig =>
      let st1 := (createBotMessage s.store { botId := botId, message := t, response := none }).2
      let config : GPTConfig :=
        { model := jsOrS botConfig.gptModel "gpt-5"
          temperature := parseFloatJS (jsOr botConfig.temperature "0.7")
          maxTokens := parseIntJS (jsOr botConfig.maxTokens "150") }
      let personality := jsOr botConfig.personality "You are a helpful assistant."
      let req := buildChatRequest t personality config
      match generateResponse env t personality config with
      | .error _ =>
        ({ s with store := st1 }, [.completion req, .sendChat chatId apologyText])
      | .ok response =>
        if env.sendOk chatId response then
          let st2 := (createBotMessage st1
            { botId := botId, message := t, response := some response }).2
          ({ s with store := st2 }, [.completion req, .sendChat chatId response])
        else
          ({ s with store := st1 },
           [.completion req, .sendChat chatId response, .sendChat chatId apologyText])

/-! ## HTTP route handlers (first half of src/server/routes.ts) -/

inductive ApiBody where
| empty
| messageBody (message : String)
| botBody (bot : Bot)
| botOptBody (bot : Option Bot)
| messagesBody (messages : List BotMessage)
deriving DecidableEq

structure HttpResponse where
  status : Nat
  body : ApiBody
deriving DecidableEq

/-- `POST /api/bots`: create the record in storage, then initialise the
Telegram bot; on failure delete the record again and answer 400. -/
def postBotsHandler (env : SysEnv) (s : SysState) (body : InsertBot) :
    HttpResponse × SysState × List NetEvent :=
let created := storageCreateBot s.store body "demo-user"
let act := telegramCreateBot env { store := created.2, registry := s.registry }
  created.1.id body.telegramToken
if act.1 then
  ({ status := 201, body := .botBody created.1 }, act.2.1, act.2.2)
else
  ({ status := 400,
     body := .messageBody "Failed to initialize Telegram bot. Please check your token." },
   { act.2.1 with store := (storageDeleteBot act.2.1.store created.1.id).2 }, act.2.2)

/-- `POST /api/bots/:id/toggle`: read the stored flag, stop or start the
live connection accordingly, and on success persist the flipped flag. -/
def toggleBotHandler (env : SysEnv) (s : SysState) (botId : String) :
    HttpResponse × SysState × List NetEvent :=
match getBot s.store botId with
| none => ({ status := 404, body := .messageBody "Bot not found" }, s, [])
| some bot =>
  let act :=
    if bot.isActive then telegramStopBot s botId
    else telegramCreateBot env s botId bot.telegramToken
  if act.1 then
    let upd := storageUpdateBot act.2.1.store botId { isActive := some (!bot.isActive) }
    ({ status := 200, body := .botOptBody upd.1 }, { act.2.1 with store := upd.2 }, act.2.2)
  else
    ({ status := 500, body := .messageBody "Failed to toggle bot status" }, act.2.1, act.2.2)

/-- `GET /api/bots/:id/messages`:
`req.query.limit ? parseInt(req.query.limit) : 50` — an absent or empty
(falsy) query value means the default 50, anything else is parsed with
`parseInt` and may be `NaN`. -/
def getMessagesHandler (s : StoreState) (botId : String) (limitQuery : Option String) :
    HttpResponse :=
let limit : Option Int :=
  match limitQuery with
  | some q => if q = "" then some 50 else parseIntJS q
  | none => some 50
{ status := 200, body := .messagesBody (getBotMessages s botId limit) }

/-! ## GitHub gateway (first half of src/server/services/githubService.ts) -/

structure SyncFile where
  path : String
  content : String
deriving DecidableEq

/-- One file as stored on the hosting side; `content` holds the base64
payload exactly as sent in the PUT body. -/
structure RemoteFile where
  repo : String
  path : String
  content : String
deriving DecidableEq

def remoteSet (r : List RemoteFile) (repo path content : String) : List RemoteFile :=
if r.any (fun f => f.repo == repo && f.path == path) then
  r.map (fun f => if f.repo = repo ∧ f.path = path then { f with content := content } else f)
else r ++ [{ repo := repo, path := path, content := content }]

/-- `GitHubService.createOrUpdateFile`: one PUT of the base64-encoded
content; an upstream failure becomes a thrown error. -/
def createOrUpdateFile (env : SysEnv) (r : List RemoteFile)
    (repo path content _message _token : String) : Except String (List RemoteFile) :=
if env.putOk repo path then .ok (remoteSet r repo path (btoa content))
else .error "Не удалось создать/обновить файл"

/-- The sequential write loop of `syncProjectToGitHub`; returns the
remote state, the success flag and the trace of attempted PUTs. -/
def syncLoop (env : SysEnv) (repo token : String) :
    List SyncFile → List RemoteFile → List RemoteFile × Bool × List NetEvent
| [], r => (r, true, [])
| f :: fs, r =>
  match createOrUpdateFile env r repo f.path f.content
      ("Обновление " ++ f.path ++ " через AI помощника") token with
  | .ok r2 =>
    let rest := syncLoop env repo token fs r2
    (rest.1, rest.2.1, .githubPut repo f.path (btoa f.content) :: rest.2.2)
  | .error _ => (r, false, [.githubPut repo f.path (btoa f.content)])

/-- `GitHubService.syncProjectToGitHub`: write every file in order, each
as an independent commit; the first failure aborts the loop and the
whole call reports failure, with no rollback of the writes already
applied. -/
def syncProjectToGitHub (env : SysEnv) (repo : String) (files : List SyncFile)
    (token : String) (r : List RemoteFile) :
    List RemoteFile × Except String Unit × List NetEvent :=
let res := syncLoop env repo token files r
(res.1, if res.2.1 then .ok () else .error "Не удалось синхронизировать проект с GitHub",
 res.2.2)

/-! ## Concrete sample data used by witnesses and counterexamples -/

/-- A syntactically valid token for the structural check. -/
def tokW : String :=
"bot12345678901234567890"

def envAllOk : SysEnv where
  getMeOk := fun _ => true
  startPollingOk := fun _ => true
  sendOk := fun _ _ => true
  chatCompletion := fun _ => .ok (some "hello")
  putOk := fun _ _ => true

/-- The platform rejects every token at the `getMe` verification. -/
def envRejectToken : SysEnv where
  getMeOk := fun _ => false
  startPollingOk := fun _ => true
  sendOk := fun _ _ => true
  chatCompletion := fun _ => .error "network"
  putOk := fun _ _ => true

/-- The completion upstream answers without an error but with a null
message content. -/
def envNoContent : SysEnv where
  getMeOk := fun _ => true
  startPollingOk := fun _ => true
  sendOk := fun _ _ => true
  chatCompletion := fun _ => .ok none
  putOk := fun _ _ => true

/-- The GitHub contents endpoint fails exactly on path f2. -/
def envPutFails2 : SysEnv where
  getMeOk := fun _ => true
  startPollingOk := fun _ => true
  sendOk := fun _ _ => true
  chatCompletion := fun _ => .ok (some "hello")
  putOk := fun _ p => !(p == "f2")

def botW1 : Bot where
  id := "b1"
  name := "Sample bot"
  description := none
  username := "sample_bot"
  telegramToken := tokW
  gptModel := "my-model"
  personality := some "Talk like a pirate."
  temperature := some "0.9"
  maxTokens := some "200"
  isActive := true
  createdAt := some 0
  userId := some "demo-user"

def stateW1 : SysState where
  store := { bots := [botW1], botMessages := [], nextId := 1, now := 1 }
  registry := ["b1"]

def botW2 : Bot :=
{ botW1 with id := "b2", username := "sample2_bot", isActive := false }

def stateW2 : SysState where
  store := { bots := [botW2], botMessages := [], nextId := 1, now := 0 }
  registry := []

/-- The state produced by a successful activation of botW2 in stateW2. -/
def stateAfterActW2 : SysState where
  store := { bots := [{ botW2 with isActive := true }], botMessages := [], nextId := 1, now := 0 }
  registry := ["b2"]

def insertW : InsertBot where
  name := "Sample bot"
  description := none
  username := "sample_bot"
  telegramToken := tokW
  gptModel := none
  personality := none
  temperature := none
  maxTokens := none
  isActive := none

def emptySys : SysState where
  store := { bots := [], botMessages := [], nextId := 0, now := 0 }
  registry := []

def msgA : BotMessage where
  id := "m1"
  botId := "b1"
  message := "q1"
  response := some "r1"
  timestamp := some 1

def msgB : BotMessage where
  id := "m2"
  botId := "b1"
  message := "q2"
  response := some "r2"
  timestamp := some 2

def msgC : BotMessage where
  id := "m3"
  botId := "b1"
  message := "q3"
  response := some "r3"
  timestamp := some 3

def storeW8 : StoreState where
  bots := []
  botMessages := [msgA, msgB, msgC]
  nextId := 3
  now := 9

/-! ## Helper lemmas about the storage model -/

theorem find?_replace (l : List Bot) (id : String) (b2 : Bot) (h2 : b2.id = id)
    (hex : (l.find? (fun x => x.id == id)).isSome = true) :
    (l.map (fun x => if x.id = id then b2 else x)).find? (fun x => x.id == id) = some b2 := by
  induction l with
  | nil => simp [List.find?] at hex
  | cons a l ih =>
    by_cases ha : a.id = id
    · simp only [List.map_cons, if_pos ha]
      have hb : (b2.id == id) = true := by simp [h2]
      simp [List.find?, hb]
    · simp only [List.map_cons, if_neg ha]
      have hpa : (a.id == id) = false := by simp [ha]
      simp only [List.find?, hpa] at hex ⊢
      exact ih hex

theorem storageUpdateBot_of_getBot {s : StoreState} {id : String} {b : Bot} (p : BotPatch)
    (h : getBot s id = some b) :
    (storageUpdateBot s id p).1 = some (applyBotPatch b p) ∧
    getBot (storageUpdateBot s id p).2 id = some (applyBotPatch b p) := by
  have hbid : b.id = id := by
    have := List.find?_some h
    simpa using this
  constructor
  · simp [storageUpdateBot, h]
  · simp only [storageUpdateBot, h]
    simp only [getBot] at h ⊢
    exact find?_replace s.bots id (applyBotPatch b p) hbid (by simp [h])

theorem isActive_of_update_isActive {s : StoreState} {id : String} {v : Bool} {b : Bot}
    (h : getBot (storageUpdateBot s id { isActive := some v }).2 id = some b) :
    b.isActive = v := by
  cases hg : getBot s id with
  | none =>
    have hs : (storageUpdateBot s id { isActive := some v }).2 = s := by
      simp [storageUpdateBot, hg]
    rw [hs, hg] at h
    cases h
  | some b0 =>
    have h2 := (storageUpdateBot_of_getBot { isActive := some v } hg).2
    rw [h2] at h
    cases h
    rfl

theorem getBot_delete (s : StoreState) (id : String) :
    getBot (storageDeleteBot s id).2 id = none := by
  simp only [storageDeleteBot, getBot]
  rw [List.find?_eq_none]
  intro x hx
  have hpred := (List.mem_filter.mp hx).2
  simp at hpred ⊢
  exact hpred

/-! ## Claims -/

/-- Claim C3 counterexample: an upstream response that carries no
content does NOT make the gateway fail — `generateResponse` returns the
built-in fallback text itself, so the claim that the call fails exactly
when the upstream errors or returns no content (with the caller
supplying the fallback) is false at this input. -/
theorem claim_C3_counterexample :
    generateResponse envNoContent "hello" "You are helpful."
      { model := "gpt-5", temperature := none, maxTokens := some 150 } =
      .ok genFallbackText := rfl

/-- Claim C3 (amended): both generate entry points fail with a
generation error exactly when the upstream service call errors; an
upstream response with no content does not fail — the gateway itself
substitutes its built-in fallback string. -/
theorem claim_C3_amended (env : SysEnv) (m p : String) (c : GPTConfig) (ps : ChatParams) :
    ((∃ e, generateResponse env m p c = .error e) ↔
      (∃ u, env.chatCompletion (buildChatRequest m p c) = .error u)) ∧
    (env.chatCompletion (buildChatRequest m p c) = .ok none →
      generateResponse env m p c = .ok genFallbackText) ∧
    ((∃ e, generateResponseChat env ps = .error e) ↔
      (∃ u, env.chatCompletion (buildChatParamsRequest ps) = .error u)) ∧
    (env.chatCompletion (buildChatParamsRequest ps) = .ok none →
      generateResponseChat env ps = .ok "Извините, не удалось сгенерировать ответ.") := by
  refine ⟨?_, ?_, ?_, ?_⟩
  · cases h : env.chatCompletion (buildChatRequest m p c) with
    | error u => simp [generateResponse, h]
    | ok content => simp [generateResponse, h]
  · intro h
    simp [generateResponse, h, jsOr]
  · cases h : env.chatCompletion (buildChatParamsRequest ps) with
    | error u => simp [generateResponseChat, h]
    | ok content => simp [generateResponseChat, h]
  · intro h
    simp [generateResponseChat, h, jsOr]

/-- Claim C3 witness: at a concrete environment whose upstream answers
with no content, the chat-signature entry point also returns its own
fallback text instead of failing. -/
theorem claim_C3_witness :
    generateResponseChat envNoContent { message := "hi", systemPrompt := "sys", history := [] } =
      .ok "Извините, не удалось сгенерировать ответ." :=
  (claim_C3_amended envNoContent "hi" "sys"
    { model := "gpt-5", temperature := none, maxTokens := some 150 }
    { message := "hi", systemPrompt := "sys", history := [] }).2.2.2 rfl

/-- Claim C4: for every bot id and every token failing the structural
check, Activate performs no network action (empty trace), stores the
active flag as false and returns failure. -/
theorem claim_C4 (env : SysEnv) (s : SysState) (botId token : String)
    (h : tokenMalformed token = true) :
    telegramCreateBot env s botId token =
      (false,
       { s with store := (storageUpdateBot s.store botId { isActive := some false }).2 }, []) ∧
    ∀ b, getBot (storageUpdateBot s.store botId { isActive := some false }).2 botId = some b →
      b.isActive = false := by
  constructor
  · simp [telegramCreateBot, h]
  · intro b hb
    exact isActive_of_update_isActive hb

/-- Claim C4 witness: a malformed token on a concrete active bot. -/
theorem claim_C4_witness :
    telegramCreateBot envAllOk stateW1 "b1" "abc" =
      (false,
       { stateW1 with
         store := (storageUpdateBot stateW1.store "b1" { isActive := some false }).2 }, []) :=
  (claim_C4 envAllOk stateW1 "b1" "abc" (by decide)).1

/-- Claim C7: Deactivate for a bot id with no live connection is a
no-op returning the no-connection result: it changes neither the
registry nor any stored record. -/
theorem claim_C7 (s : SysState) (botId : String) (h : botId ∉ s.registry) :
    telegramStopBot s botId = (false, s, []) := by
  simp [telegramStopBot, h]

/-- Claim C7 witness: stopping a bot id that has no live connection in a
concrete state. -/
theorem claim_C7_witness : telegramStopBot stateW1 "zz" = (false, stateW1, []) :=
  claim_C7 stateW1 "zz" (by decide)

/-- Claim C10 counterexample: the limit query value can be present and
not parseable as an integer (the empty string, reachable as the URL
query limit=) and yet the endpoint does not return an empty list: the
JS truthiness test short-circuits before parseInt, so the default 50 is
used and all stored messages come back. -/
theorem claim_C10_counterexample :
    parseIntJS "" = none ∧
    getMessagesHandler storeW8 "b1" (some "") =
      { status := 200, body := .messagesBody [msgC, msgB, msgA] } := by
  constructor
  · rfl
  · decide

/-- Claim C10 (amended): for every request whose limit query value is
present, non-empty and not parseable as an integer, parseInt yields NaN
and the endpoint answers 200 with an empty list — not an error and not
the default 50 (a present-but-empty value is falsy and falls back to
the default instead). -/
theorem claim_C10_amended (s : StoreState) (botId q : String) (hq : q ≠ "")
    (hp : parseIntJS q = none) :
    getMessagesHandler s botId (some q) = { status := 200, body := .messagesBody [] } := by
  simp [getMessagesHandler, hq, hp, getBotMessages, sliceTo]

/-- Claim C10 witness: a non-numeric limit value on a store holding
three messages yields the empty list. -/
theorem claim_C10_witness :
    getMessagesHandler storeW8 "b1" (some "abc") =
      { status := 200, body := .messagesBody [] } :=
  claim_C10_amended storeW8 "b1" "abc" (by decide) (by decide)

/-- Claim C2 counterexample: creating a bot through POST /api/bots with
a structurally valid token that the platform rejects ends with NO
stored record at all for the new bot — the handler deletes the record
after the failed activation — so the claim that the stored record has
isActive=false afterwards is false at this input (the 400 response part
does hold). -/
theorem claim_C2_counterexample :
    (postBotsHandler envRejectToken emptySys insertW).1 =
      { status := 400,
        body := .messageBody "Failed to initialize Telegram bot. Please check your token." } ∧
    getBot (postBotsHandler envRejectToken emptySys insertW).2.1.store (uuid 0) = none ∧
    (postBotsHandler envRejectToken emptySys insertW).2.1.store.bots = [] := by
  refine ⟨by decide, by decide, by decide⟩

/-- Claim C2 (amended): for every bot created via POST /api/bots with a
structurally valid token that the platform rejects, Activate returns
failure, the HTTP response is 400 with an explanatory message, and the
stored record created for the bot is deleted again (absent from the
store) afterwards. -/
theorem claim_C2_amended (env : SysEnv) (s : SysState) (ib : InsertBot)
    (hstruct : tokenMalformed ib.telegramToken = false)
    (hrej : env.getMeOk ib.telegramToken = false) :
    (telegramCreateBot env
        { store := (storageCreateBot s.store ib "demo-user").2, registry := s.registry }
        (storageCreateBot s.store ib "demo-user").1.id ib.telegramToken).1 = false ∧
    (postBotsHandler env s ib).1 =
      { status := 400,
        body := .messageBody "Failed to initialize Telegram bot. Please check your token." } ∧
    getBot (postBotsHandler env s ib).2.1.store (storageCreateBot s.store ib "demo-user").1.id =
      none := by
  have hact : ∀ st : SysState,
      (telegramCreateBot env st (storageCreateBot s.store ib "demo-user").1.id
        ib.telegramToken).1 = false := by
    intro st
    simp [telegramCreateBot, hstruct, hrej]
  refine ⟨hact _, ?_, ?_⟩
  · simp only [postBotsHandler]
    rw [if_neg (by simp [hact])]
  · simp only [postBotsHandler]
    rw [if_neg (by simp [hact])]
    exact getBot_delete _ _

/-- Claim C2 witness: the concrete platform-rejected creation produces
the 400 response with the explanatory message. -/
theorem claim_C2_witness :
    (postBotsHandler envRejectToken emptySys insertW).1 =
      { status := 400,
        body := .messageBody "Failed to initialize Telegram bot. Please check your token." } :=
  (claim_C2_amended envRejectToken emptySys insertW (by decide) rfl).2.1

/-- Claim C5: whenever Activate returns success, a subsequent
Deactivate on the same id succeeds, leaves no registry entry for the
id, and leaves the stored active flag false. -/
theorem claim_C5 (env : SysEnv) (s : SysState) (botId token : String) (s1 : SysState)
    (tr : List NetEvent) (h : telegramCreateBot env s botId token = (true, s1, tr)) :
    (telegramStopBot s1 botId).1 = true ∧
    botId ∉ (telegramStopBot s1 botId).2.1.registry ∧
    ∀ b, getBot (telegramStopBot s1 botId).2.1.store botId = some b → b.isActive = false := by
  simp only [telegramCreateBot] at h
  split at h
  · simp at h
  · split at h
    · split at h
      · simp only [Prod.mk.injEq] at h
        obtain ⟨-, hs1, -⟩ := h
        subst hs1
        have hmem : botId ∈ (if botId ∈ s.registry then s.registry
            else s.registry ++ [botId]) := by
          by_cases hm : botId ∈ s.registry
          · simp [hm]
          · simp [hm]
        have hstop : telegramStopBot
            { store := (storageUpdateBot s.store botId { isActive := some true }).2
              registry := if botId ∈ s.registry then s.registry else s.registry ++ [botId] }
            botId =
            (true,
             { store := (storageUpdateBot
                  (storageUpdateBot s.store botId { isActive := some true }).2 botId
                  { isActive := some false }).2
               registry := (if botId ∈ s.registry then s.registry
                   else s.registry ++ [botId]).filter (fun x => !(x == botId)) },
             [.stopPolling botId]) := by
          simp [telegramStopBot, hmem]
        refine ⟨by rw [hstop], ?_, ?_⟩
        · rw [hstop]
          intro hx
          have hpred := (List.mem_filter.mp hx).2
          simp at hpred
        · rw [hstop]
          intro b hb
          exact isActive_of_update_isActive hb
      · simp at h
    · simp at h

/-- Claim C5 witness: a concrete successful activation followed by a
successful deactivation. -/
theorem claim_C5_witness : (telegramStopBot stateAfterActW2 "b2").1 = true :=
  (claim_C5 envAllOk stateW2 "b2" tokW stateAfterActW2
    [.getMe tokW, .startPolling tokW] (by decide)).1

/-- One Toggle on a bot whose stored flag is active and whose id has a
live connection: the connection is removed and the stored record ends
inactive, with no other field changed. -/
theorem toggle_step_active (env : SysEnv) (s : SysState) (botId : String) (b : Bot)
    (hb : getBot s.store botId = some b) (hAct : b.isActive = true)
    (hmem : botId ∈ s.registry) :
    (toggleBotHandler env s botId).2.1.registry = s.registry.filter (fun x => !(x == botId)) ∧
    getBot (toggleBotHandler env s botId).2.1.store botId = some { b with isActive := false } := by
  have hres : toggleBotHandler env s botId =
      ({ status := 200, body := .botOptBody (storageUpdateBot
           (storageUpdateBot s.store botId { isActive := some false }).2 botId
           { isActive := some false }).1 },
       { store := (storageUpdateBot
           (storageUpdateBot s.store botId { isActive := some false }).2 botId
           { isActive := some false }).2
         registry := s.registry.filter (fun x => !(x == botId)) },
       [.stopPolling botId]) := by
    simp [toggleBotHandler, hb, hAct, telegramStopBot, hmem]
  constructor
  · rw [hres]
  · rw [hres]
    have h1 := (storageUpdateBot_of_getBot { isActive := some false } hb).2
    exact (storageUpdateBot_of_getBot { isActive := some false } h1).2

/-- One Toggle on a bot whose stored flag is inactive and whose id has
no live connection, with the transport succeeding: the connection is
registered and the stored record ends active. -/
theorem toggle_step_inactive (env : SysEnv) (s : SysState) (botId : String) (b : Bot)
    (hb : getBot s.store botId = some b) (hAct : b.isActive = false)
    (hmem : botId ∉ s.registry)
    (htok : tokenMalformed b.telegramToken = false)
    (hme : env.getMeOk b.telegramToken = true)
    (hpoll : env.startPollingOk b.telegramToken = true) :
    (toggleBotHandler env s botId).2.1.registry = s.registry ++ [botId] ∧
    getBot (toggleBotHandler env s botId).2.1.store botId = some { b with isActive := true } := by
  have hres : toggleBotHandler env s botId =
      ({ status := 200, body := .botOptBody (storageUpdateBot
           (storageUpdateBot s.store botId { isActive := some true }).2 botId
           { isActive := some true }).1 },
       { store := (storageUpdateBot
           (storageUpdateBot s.store botId { isActive := some true }).2 botId
           { isActive := some true }).2
         registry := s.registry ++ [botId] },
       [.getMe b.telegramToken, .startPolling b.telegramToken]) := by
    simp [toggleBotHandler, hb, hAct, telegramCreateBot, htok, hme, hpoll, hmem]
  constructor
  · rw [hres]
  · rw [hres]
    have h1 := (storageUpdateBot_of_getBot { isActive := some true } hb).2
    exact (storageUpdateBot_of_getBot { isActive := some true } h1).2

/-- Claim C6: starting from a state where the stored active flag and
the live-connection registry agree and with the transport succeeding,
Toggle applied twice returns the bot record to its original stored
active state. -/
theorem claim_C6 (env : SysEnv) (s : SysState) (botId : String) (b : Bot)
    (hb : getBot s.store botId = some b)
    (hagree : b.isActive = true ↔ botId ∈ s.registry)
    (htok : tokenMalformed b.telegramToken = false)
    (hme : env.getMeOk b.telegramToken = true)
    (hpoll : env.startPollingOk b.telegramToken = true) :
    (getBot (toggleBotHandler env (toggleBotHandler env s botId).2.1 botId).2.1.store
        botId).map (fun x => x.isActive) = some b.isActive := by
  cases hA : b.isActive with
  | true =>
    have hmem : botId ∈ s.registry := hagree.mp hA
    obtain ⟨hreg1, hget1⟩ := toggle_step_active env s botId b hb hA hmem
    have hnot1 : botId ∉ (toggleBotHandler env s botId).2.1.registry := by
      rw [hreg1]
      intro hx
      have hpred := (List.mem_filter.mp hx).2
      simp at hpred
    have step2 := toggle_step_inactive env (toggleBotHandler env s botId).2.1 botId
      { b with isActive := false } hget1 rfl hnot1 htok hme hpoll
    simp [step2.2, hA]
  | false =>
    have hmem : botId ∉ s.registry := by
      intro hx
      have hcontr := hagree.mpr hx
      rw [hA] at hcontr
      exact Bool.noConfusion hcontr
    obtain ⟨hreg1, hget1⟩ := toggle_step_inactive env s botId b hb hA hmem htok hme hpoll
    have hmem1 : botId ∈ (toggleBotHandler env s botId).2.1.registry := by
      rw [hreg1]
      exact List.mem_append_right _ (List.mem_singleton.mpr rfl)
    have step2 := toggle_step_active env (toggleBotHandler env s botId).2.1 botId
      { b with isActive := true } hget1 rfl hmem1
    simp [step2.2, hA]

/-- Claim C6 witness: double Toggle on a concrete active bot with an
agreeing registry ends with the original stored active state. -/
theorem claim_C6_witness :
    (getBot (toggleBotHandler envAllOk (toggleBotHandler envAllOk stateW1 "b1").2.1
        "b1").2.1.store "b1").map (fun x => x.isActive) = some botW1.isActive :=
  claim_C6 envAllOk stateW1 "b1" botW1 (by decide) (by decide) (by decide) rfl rfl

/-- Claim C8: with three logged exchanges of strictly increasing
timestamps, GetBotMessages with limit 2 returns exactly the two most
recent records newest-first; with no limit given the handler uses the
default 50, which returns all three newest-first. -/
theorem claim_C8 (s : StoreState) (botId : String) (m1 m2 m3 : BotMessage) (t1 t2 t3 : Nat)
    (hf : s.botMessages.filter (fun m => m.botId == botId) = [m1, m2, m3])
    (h1 : tsKey m1 = t1) (h2 : tsKey m2 = t2) (h3 : tsKey m3 = t3)
    (h12 : t1 < t2) (h23 : t2 < t3) :
    getBotMessages s botId (some 2) = [m3, m2] ∧
    getMessagesHandler s botId none =
      { status := 200, body := .messagesBody (getBotMessages s botId (some 50)) } ∧
    getBotMessages s botId (some 50) = [m3, m2, m1] := by
  have c1 : ¬ (t2 ≤ t1) := by omega
  have c2 : ¬ (t3 ≤ t2) := by omega
  have hsort : sortTsDesc (s.botMessages.filter (fun m => m.botId == botId)) = [m3, m2, m1] := by
    rw [hf]
    simp [sortTsDesc, insertTsDesc, h1, h2, h3, c1, c2]
  refine ⟨?_, rfl, ?_⟩
  · simp [getBotMessages, hsort, sliceTo]
  · simp [getBotMessages, hsort, sliceTo]

/-- Claim C8 witness: a concrete store with three exchanges. -/
theorem claim_C8_witness : getBotMessages storeW8 "b1" (some 2) = [msgC, msgB] :=
  (claim_C8 storeW8 "b1" msgA msgB msgC 1 2 3 (by decide) rfl rfl rfl
    (by decide) (by decide)).1

/-- Claim C9: if every write before the k-th file succeeds and the
write of the k-th file fails upstream, sync-project applies exactly the
writes before k (no rollback), attempts nothing after k, and the
overall operation reports failure. -/
theorem claim_C9 (env : SysEnv) (repo token : String) (pre post : List SyncFile)
    (fk : SyncFile) (r : List RemoteFile)
    (hpre : ∀ f ∈ pre, env.putOk repo f.path = true)
    (hfail : env.putOk repo fk.path = false) :
    syncProjectToGitHub env repo (pre ++ fk :: post) token r =
      (pre.foldl (fun acc f => remoteSet acc repo f.path (btoa f.content)) r,
       .error "Не удалось синхронизировать проект с GitHub",
       (pre ++ [fk]).map (fun f => NetEvent.githubPut repo f.path (btoa f.content))) := by
  have hloop : ∀ (pr : List SyncFile) (r0 : List RemoteFile),
      (∀ f ∈ pr, env.putOk repo f.path = true) →
      syncLoop env repo token (pr ++ fk :: post) r0 =
        (pr.foldl (fun acc f => remoteSet acc repo f.path (btoa f.content)) r0, false,
         (pr ++ [fk]).map (fun f => NetEvent.githubPut repo f.path (btoa f.content))) := by
    intro pr
    induction pr with
    | nil =>
      intro r0 _
      simp [syncLoop, createOrUpdateFile, hfail]
    | cons f fs ih =>
      intro r0 hp
      have hf : env.putOk repo f.path = true := hp f (List.mem_cons_self f fs)
      have hrest := ih (remoteSet r0 repo f.path (btoa f.content))
        (fun g hg => hp g (List.mem_cons_of_mem f hg))
      simp [syncLoop, createOrUpdateFile, hf, hrest]
  simp [syncProjectToGitHub, hloop pre r hpre]

/-- Claim C9 witness: syncing three concrete files where the write of
the second fails upstream leaves exactly the first write applied,
attempts nothing after the second, and reports failure. -/
theorem claim_C9_witness :
    syncProjectToGitHub envPutFails2 "o/r"
        (([⟨"f1", "A"⟩] : List SyncFile) ++ (⟨"f2", "B"⟩ : SyncFile) :: [⟨"f3", "C"⟩])
        "tok" [] =
      (([⟨"f1", "A"⟩] : List SyncFile).foldl
         (fun acc f => remoteSet acc "o/r" f.path (btoa f.content)) ([] : List RemoteFile),
       .error "Не удалось синхронизировать проект с GitHub",
       (([⟨"f1", "A"⟩] : List SyncFile) ++ ([⟨"f2", "B"⟩] : List SyncFile)).map
         (fun f => NetEvent.githubPut "o/r" f.path (btoa f.content))) :=
  claim_C9 envPutFails2 "o/r" "tok" [⟨"f1", "A"⟩] [⟨"f3", "C"⟩] ⟨"f2", "B"⟩ []
    (by decide) (by decide)

/-- Claim C1: for every bot with a stored configuration (non-empty
personality, model, temperature and max-length fields), the
live-connection message handler issues exactly one completion request,
built from that bot's own personality as system prompt and that bot's
stored model, temperature and max-length — not from fixed defaults. -/
theorem claim_C1 (env : SysEnv) (s : SysState) (botId : String) (chatId : Int) (t : String)
    (b : Bot) (p tp mx : String)
    (ht : t ≠ "") (hb : getBot s.store botId = some b)
    (hp : b.personality = some p) (hp0 : p ≠ "")
    (hm : b.gptModel ≠ "")
    (htp : b.temperature = some tp) (htp0 : tp ≠ "")
    (hmx : b.maxTokens = some mx) (hmx0 : mx ≠ "") :
    completionRequests (handleMessage env s botId chatId (some t)).2 =
      [{ model := b.gptModel
         messages := [{ role := "system", content := p }, { role := "user", content := t }]
         temperature := parseFloatJS tp
         maxTokens := parseIntJS mx }] := by
  have hcm : jsOrS b.gptModel "gpt-5" = b.gptModel := by simp [jsOrS, hm]
  have hct : jsOr b.temperature "0.7" = tp := by simp [jsOr, htp, htp0]
  have hcx : jsOr b.maxTokens "150" = mx := by simp [jsOr, hmx, hmx0]
  have hcp : jsOr b.personality "You are a helpful assistant." = p := by simp [jsOr, hp, hp0]
  simp only [handleMessage, if_neg ht, hb, hcm, hct, hcx, hcp]
  cases hg : generateResponse env t p
      { model := b.gptModel, temperature := parseFloatJS tp, maxTokens := parseIntJS mx } with
  | error e =>
    simp [hg, completionRequests, filterCompletion, buildChatRequest]
  | ok resp =>
    by_cases hs : env.sendOk chatId resp
    · simp [hg, hs, completionRequests, filterCompletion, buildChatRequest]
    · simp [hg, hs, completionRequests, filterCompletion, buildChatRequest]

/-- Claim C1 witness: a concrete bot with non-default stored sampling
configuration; the one completion request carries exactly that
configuration. -/
theorem claim_C1_witness :
    completionRequests (handleMessage envAllOk stateW1 "b1" 7 (some "hi")).2 =
      [{ model := botW1.gptModel
         messages := [{ role := "system", content := "Talk like a pirate." },
                      { role := "user", content := "hi" }]
         temperature := parseFloatJS "0.9"
         maxTokens := parseIntJS "200" }] :=
  claim_C1 envAllOk stateW1 "b1" 7 "hi" botW1 "Talk like a pirate." "0.9" "200"
    (by decide) (by decide) rfl (by decide) (by decide) rfl (by decide) rfl (by decide)

end BotApp
